import Mathlib

/-!
Shallow embedding of the TCGA-Histology-Hub download pipeline
(`src/download_tcga_slides_by_type_and_projects.py`, and its near-duplicate
`src/gdc-WSI-downloader.py`) together with proofs about the claims of the
specification.

Conventions of the embedding:

* A Python dict coming from the GDC JSON response is modelled as a structure
  whose optional fields are `Option`-valued; `d.get(k)` is the `Option` value,
  `d.get(k, dflt)` is `Option.getD`.
* Python truthiness on the values involved is explicit: a string is truthy iff
  it is non-empty, a list is truthy iff it is non-empty, `None` is falsy.
* `defaultdict(list)` with Python 3.7+ insertion order is modelled as an
  association list `List (String × List FileRecord)` in key-insertion order.
* A Python exception is an `Except` error value; the `IndexError` raised by
  `[0]` on an empty list surfaces as `GroupError.indexError`.
-/

namespace TcgaHub

/-- One element of the `cases` list of a GDC file hit.  Only the
`submitter_id` field is ever read by the program. -/
structure CaseEntry where
  submitterId : Option String
  deriving Repr, DecidableEq

/-- A GDC file hit, as consumed by `group_by_patient`, `download_file` and the
summary writers.  Fields the code reads with `.get` (which may be absent in
the JSON) are `Option`-valued. -/
structure FileRecord where
  fileId : String
  fileName : String
  md5sum : String
  caseId : Option String
  fileSize : Option Nat
  dataFormat : Option String
  experimentalStrategy : Option String
  cases : Option (List CaseEntry)
  deriving Repr, DecidableEq

/-- Errors that can escape `group_by_patient`. -/
inductive GroupError where
  | indexError
  deriving Repr, DecidableEq

/-- The slide-type filter of `group_by_patient`
(lines 87-91 of `download_tcga_slides_by_type_and_projects.py`):

    experimental_strategy = file.get("experimental_strategy", "")
    if download_type == "tissue" and experimental_strategy != "Tissue Slide": continue
    if download_type == "diagnostic" and experimental_strategy != "Diagnostic Slide": continue
-/
def passesFilter (downloadType : String) (r : FileRecord) : Bool :=
  let es := r.experimentalStrategy.getD ""
  if downloadType == "tissue" && es != "Tissue Slide" then false
  else if downloadType == "diagnostic" && es != "Diagnostic Slide" then false
  else true

/-- Python `case_id or submitter_id`: `case_id` wins iff it is truthy,
i.e. present and non-empty. -/
def caseOr (caseId : Option String) (submitterId : String) : String :=
  match caseId with
  | none => submitterId
  | some s => if s = "" then submitterId else s

/-- Resolution of the grouping key (lines 92-94):

    case_id = file.get("case_id")
    submitter_id = file.get("cases", [{}])[0].get("submitter_id", "Unknown")
    identifier = case_id or submitter_id

`file.get("cases", [{}])[0]` raises `IndexError` when the `cases` field is
present but an empty list; when the field is absent the default `[{}]`
supplies an empty dict whose `submitter_id` lookup yields `"Unknown"`. -/
def resolveIdentifier (r : FileRecord) : Except GroupError String :=
  match r.cases with
  | some [] => .error .indexError
  | some (c :: _) => .ok (caseOr r.caseId (c.submitterId.getD "Unknown"))
  | none => .ok (caseOr r.caseId "Unknown")

/-- The allow-list test (line 96): `if patient_ids and identifier not in
patient_ids: continue`.  A record survives iff the allow-list is falsy
(`None` or the empty list) or contains the identifier. -/
def allowAdmits (patientIds : Option (List String)) (identifier : String) : Bool :=
  match patientIds with
  | none => true
  | some l => if l.isEmpty then true else l.contains identifier

/-- Append `r` under key `k` in an insertion-ordered association list, the
behaviour of `defaultdict(list)[k].append(r)`. -/
def insertGroup (g : List (String × List FileRecord)) (k : String) (r : FileRecord) :
    List (String × List FileRecord) :=
  match g with
  | [] => [(k, [r])]
  | (k', rs) :: rest =>
    if k' = k then (k', rs ++ [r]) :: rest else (k', rs) :: insertGroup rest k r

/-- One iteration of the loop body of `group_by_patient` on the accumulated
groups. -/
def groupStep (downloadType : String) (patientIds : Option (List String))
    (g : List (String × List FileRecord)) (r : FileRecord) :
    Except GroupError (List (String × List FileRecord)) :=
  if passesFilter downloadType r then
    match resolveIdentifier r with
    | .error e => .error e
    | .ok identifier =>
      if allowAdmits patientIds identifier then .ok (insertGroup g identifier r)
      else .ok g
  else .ok g

/-- The loop of `group_by_patient`, threading the accumulated groups. -/
def groupLoop (downloadType : String) (patientIds : Option (List String))
    (g : List (String × List FileRecord)) :
    List FileRecord → Except GroupError (List (String × List FileRecord))
  | [] => .ok g
  | r :: files =>
    match groupStep downloadType patientIds g r with
    | .error e => .error e
    | .ok g' => groupLoop downloadType patientIds g' files

/-- `group_by_patient(files, download_type, patient_ids=None)`
(lines 84-99 of `download_tcga_slides_by_type_and_projects.py`; the version in
`gdc-WSI-downloader.py` is the special case `patientIds = none`). -/
def group_by_patient (files : List FileRecord) (downloadType : String)
    (patientIds : Option (List String) := none) :
    Except GroupError (List (String × List FileRecord)) :=
  groupLoop downloadType patientIds [] files

/-- A record is admitted by the grouping pass: it passes the slide-type
filter, its identifier resolves, and it survives the allow-list test. -/
def admitted (downloadType : String) (patientIds : Option (List String))
    (r : FileRecord) : Bool :=
  passesFilter downloadType r &&
    match resolveIdentifier r with
    | .ok identifier => allowAdmits patientIds identifier
    | .error _ => false

/-- A record passes the filter, resolves, and its identifier is literally a
member of the list `l` (no Python-truthiness escape hatch for the empty
list).  This is the admission condition in the words of the spec. -/
def resolvedIn (r : FileRecord) (l : List String) : Bool :=
  match resolveIdentifier r with
  | .ok identifier => l.contains identifier
  | .error _ => false

/-! ## Download engine (`download_file`, lines 107-137)

The filesystem is a map from paths to byte contents plus a set of existing
directories.  The MD5 hash of `hashlib` is an external collaborator and is
passed in as an abstract function on contents.  The network is driven by an
environment `env : Nat → DlOutcome` giving, for each attempt number, what the
remote data endpoint does on that attempt: transient transport failure
(`requests.exceptions.RequestException`), a non-network local failure while
writing (e.g. `OSError` from `open`/`write`), or a successful response body.
A transient failure is modelled as leaving the file map unchanged (the
partially streamed file of the real code is overwritten by the retry anyway,
which re-enters the same mismatch branch). -/

/-- File contents as a byte list. -/
abbrev Content : Type := List Nat

instance exceptDecEq {ε α : Type} [DecidableEq ε] [DecidableEq α] :
    DecidableEq (Except ε α) := fun a b =>
  match a, b with
  | .ok x, .ok y =>
    if h : x = y then .isTrue (by rw [h])
    else .isFalse (by intro hc; cases hc; exact h rfl)
  | .error x, .error y =>
    if h : x = y then .isTrue (by rw [h])
    else .isFalse (by intro hc; cases hc; exact h rfl)
  | .ok _, .error _ => .isFalse (by intro hc; cases hc)
  | .error _, .ok _ => .isFalse (by intro hc; cases hc)

/-- In-memory filesystem: directory set and path-to-content map. -/
structure FS where
  dirs : List String
  files : List (String × Content)
  deriving DecidableEq

/-- `os.path.join` for the two-component joins the program performs. -/
def joinPath (a b : String) : String := a ++ "/" ++ b

/-- `Path(d).mkdir(exist_ok=True)`: record the directory, touch no file. -/
def mkdir (fs : FS) (d : String) : FS :=
  if fs.dirs.contains d then fs else { fs with dirs := d :: fs.dirs }

/-- Read the content at a path, `none` when the path does not exist. -/
def lookupFile (fs : FS) (p : String) : Option Content :=
  match fs.files.find? (fun e => e.1 == p) with
  | some e => some e.2
  | none => none

/-- `open(p, "wb")` followed by writing `c`: overwrite or create. -/
def writeFile (fs : FS) (p : String) (c : Content) : FS :=
  { fs with files := (p, c) :: fs.files.filter (fun e => !(e.1 == p)) }

/-- The remote data endpoint's behaviour on one attempt. -/
inductive DlOutcome where
  | netFail
  | diskFail
  | fetched (c : Content)
  deriving Repr, DecidableEq

/-- Exception classes escaping one download attempt: `network` is
`requests.exceptions.RequestException` (retryable under the `tenacity`
policy), `disk` is any other exception (not retryable). -/
inductive DlError where
  | network
  | disk
  deriving Repr, DecidableEq

/-- What a finished `download_file` body reports. -/
inductive DlReport where
  | skipped
  | downloaded
  deriving Repr, DecidableEq

/-- The non-`self` arguments of `download_file`. -/
structure DlArgs where
  projectId : String
  fileId : String
  fileName : String
  identifier : String
  md5sum : String
  slidesDir : String
  deriving DecidableEq

/-- Target path `{project_slides_dir}/{identifier}/{file_name}`. -/
def outputPath (a : DlArgs) : String :=
  joinPath (joinPath a.slidesDir a.identifier) a.fileName

/-- One execution of the body of `download_file` (lines 113-137): mkdir the
patient directory, skip when the existing file's checksum matches, otherwise
fetch and write.  Returns the outcome together with the number of network
requests this attempt issued. -/
def downloadAttempt (md5 : Content → String) (a : DlArgs) (fs : FS)
    (outcome : DlOutcome) : Except DlError (FS × DlReport) × Nat :=
  let patientDir := joinPath a.slidesDir a.identifier
  let fs1 := mkdir fs patientDir
  let path := outputPath a
  let fetch : Except DlError (FS × DlReport) × Nat :=
    match outcome with
    | .netFail => (.error .network, 1)
    | .diskFail => (.error .disk, 1)
    | .fetched c => (.ok (writeFile fs1 path c, .downloaded), 1)
  match lookupFile fs1 path with
  | some c => if md5 c == a.md5sum then (.ok (fs1, .skipped), 0) else fetch
  | none => fetch

/-- `tenacity.wait_exponential(multiplier, min, max)` evaluated at failed
attempt number `n`: `max(max(0, min), min(multiplier * 2 ** n, max))`. -/
def waitExponential (multiplier minW maxW n : Nat) : Nat :=
  max (max 0 minW) (min (multiplier * 2 ^ n) maxW)

/-- Aggregate outcome of `download_file` including its retry history. -/
structure RetryResult where
  result : Except DlError (FS × DlReport)
  attempts : Nat
  waits : List Nat
  netCalls : Nat
  deriving DecidableEq

/-- The `tenacity` retry loop around the body of `download_file`:
`attemptNo` is the current attempt number (starting at 1), `remaining` the
number of further attempts `stop_after_attempt` still allows.  Only a
`network` error is retried (`retry_if_exception_type((RequestException,))`);
between attempts the loop sleeps `wait_exponential(multiplier=1, min=4,
max=10)` evaluated at the failed attempt's number. -/
def retryLoop (md5 : Content → String) (a : DlArgs) (env : Nat → DlOutcome)
    (fs : FS) (attemptNo remaining : Nat) : RetryResult :=
  match downloadAttempt md5 a fs (env attemptNo) with
  | (.ok v, calls) => { result := .ok v, attempts := 1, waits := [], netCalls := calls }
  | (.error .network, calls) =>
    match remaining with
    | 0 => { result := .error .network, attempts := 1, waits := [], netCalls := calls }
    | remaining' + 1 =>
      let w := waitExponential 1 4 10 attemptNo
      let rest := retryLoop md5 a env fs (attemptNo + 1) remaining'
      { result := rest.result, attempts := rest.attempts + 1,
        waits := w :: rest.waits, netCalls := calls + rest.netCalls }
  | (.error .disk, calls) =>
    { result := .error .disk, attempts := 1, waits := [], netCalls := calls }
termination_by remaining

/-- `download_file` as decorated with `@retry(stop=stop_after_attempt(3),
wait=wait_exponential(multiplier=1, min=4, max=10),
retry=retry_if_exception_type((requests.exceptions.RequestException,)))`:
attempt 1 with up to 2 further attempts. -/
def download_file (md5 : Content → String) (a : DlArgs) (env : Nat → DlOutcome)
    (fs : FS) : RetryResult :=
  retryLoop md5 a env fs 1 2

/-! ## Summary reporter (`generate_project_summary_csv`, lines 139-178, and
`generate_all_projects_summary_csv`, lines 180-195)

Numeric CSV cells are rendered with `toString`; the megabyte figure
`f"{total_size_bytes / (1024*1024):.2f}"` is a deterministic function of the
byte total, so the size cell is rendered here as the byte total itself.  The
`set` of data formats is iterated by CPython in an order that depends on the
process's string-hash seed; the embedding therefore takes the enumeration
order of that set as an explicit argument `setOrder`, a function choosing an
enumeration of the distinct formats. -/

/-- The grouping result: insertion-ordered patient-to-records map. -/
abbrev PatientGroups : Type := List (String × List FileRecord)

/-- All records of all patients in the `for slides in values() for file in
slides` traversal order. -/
def allRecords (g : PatientGroups) : List FileRecord :=
  (g.map Prod.snd).flatten

/-- The distinct elements of `set(file.get("data_format", "Unknown") ...)`,
as a duplicate-free list. -/
def distinctFormats (g : PatientGroups) : List String :=
  ((allRecords g).map (fun r => r.dataFormat.getD "Unknown")).dedup

/-- `sum(len(slides) for slides in patient_slides.values())`. -/
def totalFiles (g : PatientGroups) : Nat :=
  (g.map (fun e => e.2.length)).sum

/-- `sum(file.get("file_size", 0) ...)` over a record list. -/
def sizeBytes (rs : List FileRecord) : Nat :=
  (rs.map (fun r => r.fileSize.getD 0)).sum

/-- `sum(1 for ... if file.get("experimental_strategy") == "Tissue Slide")`
over a record list.  Note the summary code uses `.get` without a default, so
an absent strategy compares unequal to both labels. -/
def countStrategy (label : String) (rs : List FileRecord) : Nat :=
  (rs.filter (fun r => r.experimentalStrategy == some label)).length

/-- The dict returned by `generate_project_summary_csv` (lines 170-178);
`total_size_bytes` stands for the `total_size_mb` float it determines. -/
structure ProjectSummary where
  project : String
  total_patients : Nat
  total_slides : Nat
  tissue_slides : Nat
  diagnostic_slides : Nat
  total_size_bytes : Nat
  file_formats : String
  deriving Repr, DecidableEq

/-- The returned summary dict of `generate_project_summary_csv`.  `setOrder`
chooses the enumeration order of the Python `set` of formats. -/
def project_summary (setOrder : List String → List String) (projectId : String)
    (g : PatientGroups) : ProjectSummary :=
  { project := projectId
    total_patients := g.length
    total_slides := totalFiles g
    tissue_slides := countStrategy "Tissue Slide" (allRecords g)
    diagnostic_slides := countStrategy "Diagnostic Slide" (allRecords g)
    total_size_bytes := sizeBytes (allRecords g)
    file_formats := String.intercalate ", " (setOrder (distinctFormats g)) }

/-- One per-patient row of the second CSV section (lines 154-158). -/
def patientRow (e : String × List FileRecord) : List String :=
  [e.1, toString e.2.length,
   toString (countStrategy "Tissue Slide" e.2),
   toString (countStrategy "Diagnostic Slide" e.2),
   toString (sizeBytes e.2)]

/-- The rows `csv.writer` emits in `generate_project_summary_csv`
(lines 148-158): project header and totals row, a blank row, then the
per-patient section sorted by patient identifier as Python's
`sorted(patient_slides.items())` does. -/
def generate_project_summary_csv (setOrder : List String → List String)
    (projectId : String) (g : PatientGroups) : List (List String) :=
  let s := project_summary setOrder projectId g
  [["Project", "Total Patients", "Total Slides", "Tissue Slides",
    "Diagnostic Slides", "Total Size (MB)", "File Formats"],
   [s.project, toString s.total_patients, toString s.total_slides,
    toString s.tissue_slides, toString s.diagnostic_slides,
    toString s.total_size_bytes, s.file_formats],
   []] ++
  [["Patient ID", "Number of Slides", "Tissue Slides", "Diagnostic Slides",
    "Size (MB)"]] ++
  (g.mergeSort (fun x y => decide (x.1 ≤ y.1))).map patientRow

/-- One row of the cross-project report (lines 186-194). -/
def projectSummaryRow (s : ProjectSummary) : List String :=
  [s.project, toString s.total_patients, toString s.total_slides,
   toString s.tissue_slides, toString s.diagnostic_slides,
   toString s.total_size_bytes, s.file_formats]

/-- The rows `generate_all_projects_summary_csv` writes: a header followed by
one row per `ProjectSummary`, in sequence order. -/
def generate_all_projects_summary_csv (summaries : List ProjectSummary) :
    List (List String) :=
  ["Project", "Total Patients", "Total Slides", "Tissue Slides",
   "Diagnostic Slides", "Total Size (MB)", "File Formats"] ::
  summaries.map projectSummaryRow

/-! ## Orchestrator (`download_tcga_slides`, lines 197-265)

Network interactions are recorded as an event trace.  The remote API's
behaviour is an environment: the result of the `/projects` catalog query of
`get_all_projects` and, per project, the result of the `/files` manifest
query of `get_manifest`.  `pandas.read_csv` is an external collaborator; the
model receives the parsed table (its column names and the cleaned values of
its "Patient ID" column, used only when that column exists).  Comma-splitting
and stripping of CLI strings is likewise received already performed.  The
per-file data fetches of the download phase are driven by `download_file`
above and do not affect which summaries are produced, so they are not part of
this trace. -/

/-- Catalog-level network requests the orchestrator issues. -/
inductive NetEvent where
  | projectsQuery
  | manifestQuery (projectId : String)
  deriving Repr, DecidableEq

/-- Errors that abort the whole run: `ValueError` (modelled as
`invalidArgument`) and a failed `/projects` query whose exception propagates
out of `get_all_projects` (`remoteCatalog`). -/
inductive RunError where
  | invalidArgument
  | remoteCatalog
  deriving Repr, DecidableEq

/-- The remote catalog's behaviour for one run. -/
structure CatalogEnv where
  projectsResult : Except Unit (List String)
  manifestResult : String → Except Unit (List FileRecord)

/-- The `--projects` argument after comma-splitting: `"all"` or an explicit
list. -/
inductive ProjectsArg where
  | all
  | explicit (ps : List String)

/-- The `--patient-ids` argument: absent, an inline comma-separated list, or
a path to a CSV file, here carried as the parsed table. -/
inductive PatientArg where
  | noneArg
  | inline (ids : List String)
  | csvFile (columns : List String) (patientIdColumn : List String)

/-- Lines 213-228: resolve the patient allow-list.  A CSV lacking the
"Patient ID" column raises `ValueError` (re-wrapped by the surrounding
`except` clause, still a `ValueError`). -/
def resolvePatientIds (pa : PatientArg) : Except RunError (Option (List String)) :=
  match pa with
  | .noneArg => .ok none
  | .inline ids => .ok (some ids)
  | .csvFile columns patientIdColumn =>
    if columns.contains "Patient ID" then .ok (some patientIdColumn)
    else .error .invalidArgument

/-- Line 198: the `download_type` validity check. -/
def validDownloadType (dt : String) : Bool :=
  ["tissue", "diagnostic", "both", "none"].contains dt

/-- Lines 234-263: process one project inside the per-project `try`.  A
failed manifest query or an exception out of `group_by_patient` is caught and
the project is skipped (`none`); otherwise its `ProjectSummary` is produced.
Line 237 replaces the filter by `"both"` when `download_type` is `"none"`. -/
def processProject (setOrder : List String → List String) (env : CatalogEnv)
    (dt : String) (patientIds : Option (List String)) (p : String) :
    Option ProjectSummary :=
  match env.manifestResult p with
  | .error _ => none
  | .ok files =>
    match group_by_patient files (if dt == "none" then "both" else dt) patientIds with
    | .error _ => none
    | .ok g => some (project_summary setOrder p g)

/-- The per-project loop (lines 230-263), accumulating the summaries of the
projects that completed. -/
def runProjects (setOrder : List String → List String) (env : CatalogEnv)
    (dt : String) (patientIds : Option (List String)) :
    List String → List ProjectSummary
  | [] => []
  | p :: ps =>
    match processProject setOrder env dt patientIds p with
    | none => runProjects setOrder env dt patientIds ps
    | some s => s :: runProjects setOrder env dt patientIds ps

/-- `download_tcga_slides(download_type, projects, patient_ids)`
(lines 197-265): validate the slide type, fetch the project catalog, validate
the project selection, resolve the patient allow-list, loop over the
projects, and always hand the accumulated summaries to
`generate_all_projects_summary_csv`.  Returns the run outcome (the summary
rows written on completion) together with the catalog-level network trace in
the order the requests were issued. -/
def download_tcga_slides (setOrder : List String → List String)
    (env : CatalogEnv) (dt : String) (projects : ProjectsArg)
    (pa : PatientArg) : Except RunError (List ProjectSummary) × List NetEvent :=
  if validDownloadType dt then
    match env.projectsResult with
    | .error _ => (.error .remoteCatalog, [.projectsQuery])
    | .ok allProjects =>
      let projectList := match projects with
        | .all => allProjects
        | .explicit ps => ps
      let invalid := match projects with
        | .all => ([] : List String)
        | .explicit ps => ps.filter (fun p => !(allProjects.contains p))
      if invalid.isEmpty then
        match resolvePatientIds pa with
        | .error e => (.error e, [.projectsQuery])
        | .ok patientIds =>
          (.ok (runProjects setOrder env dt patientIds projectList),
           .projectsQuery :: projectList.map NetEvent.manifestQuery)
      else (.error .invalidArgument, [.projectsQuery])
  else (.error .invalidArgument, [])

/-! ## Concrete sample data used by witnesses and counterexamples -/

/-- A Tissue Slide record for patient P1 (all identifiers present). -/
def recTissue : FileRecord :=
  ⟨"f1", "t1.svs", "m1", some "P1", some 100, some "SVS", some "Tissue Slide", none⟩

/-- A Diagnostic Slide record for patient P1, with a distinct data format. -/
def recDiag : FileRecord :=
  ⟨"f2", "d1.svs", "m2", some "P1", some 200, some "TIFF", some "Diagnostic Slide", none⟩

/-- A record whose `cases` field is present but an empty list. -/
def recEmptyCases : FileRecord :=
  ⟨"f3", "e1.svs", "m3", none, none, none, some "Tissue Slide", some []⟩

/-- A record with an empty-string case identifier and a first case entry
carrying submitter identifier SUB1. -/
def recEmptyCaseId : FileRecord :=
  ⟨"f4", "c1.svs", "m4", some "", none, none, some "Tissue Slide",
   some [⟨some "SUB1"⟩]⟩

/-- A record with no case identifier and a first case entry with submitter
identifier S2. -/
def recSubmitterOnly : FileRecord :=
  ⟨"f5", "s1.svs", "m5", none, none, none, none, some [⟨some "S2"⟩]⟩

/-- A record with neither a case identifier nor a `cases` field. -/
def recNoIds : FileRecord :=
  ⟨"f6", "u1.svs", "m6", none, none, none, none, none⟩

/-- A record with both a non-empty case identifier and a non-empty `cases`
list. -/
def recCaseAndCases : FileRecord :=
  ⟨"f7", "w1.svs", "m7", some "P7", none, none, none, some [⟨some "S7"⟩]⟩

/-- The grouping of `[recTissue, recDiag]` under filter "both". -/
def c1Group : PatientGroups := [("P1", [recTissue, recDiag])]

/-! ## Lemmas about the filesystem primitives -/

lemma mkdir_files (fs : FS) (d : String) : (mkdir fs d).files = fs.files := by
  unfold mkdir
  split <;> rfl

lemma lookupFile_mkdir (fs : FS) (d p : String) :
    lookupFile (mkdir fs d) p = lookupFile fs p := by
  unfold lookupFile
  rw [mkdir_files]

lemma lookupFile_writeFile_self (fs : FS) (p : String) (c : Content) :
    lookupFile (writeFile fs p c) p = some c := by
  simp [lookupFile, writeFile]

/-! ## Lemmas about the grouping loop -/

lemma mem_insertGroup_keys (g : PatientGroups) (k : String) (r : FileRecord)
    (x : String) :
    x ∈ (insertGroup g k r).map Prod.fst ↔ x ∈ g.map Prod.fst ∨ x = k := by
  induction g with
  | nil => simp [insertGroup]
  | cons e rest ih =>
    obtain ⟨k', rs⟩ := e
    by_cases h : k' = k
    · subst h
      simp [insertGroup]
      tauto
    · simp [insertGroup, h, ih]
      tauto

lemma nodup_insertGroup_keys (g : PatientGroups) (k : String) (r : FileRecord)
    (h : (g.map Prod.fst).Nodup) :
    ((insertGroup g k r).map Prod.fst).Nodup := by
  induction g with
  | nil => simp [insertGroup]
  | cons e rest ih =>
    obtain ⟨k', rs⟩ := e
    simp only [List.map_cons, List.nodup_cons] at h
    by_cases hk : k' = k
    · subst hk
      simpa [insertGroup] using h
    · simp only [insertGroup, if_neg hk, List.map_cons, List.nodup_cons]
      refine ⟨?_, ih h.2⟩
      intro hmem
      rcases (mem_insertGroup_keys rest k r k').mp hmem with hin | heq
      · exact h.1 hin
      · exact hk heq

lemma allRecords_insertGroup (g : PatientGroups) (k : String) (r : FileRecord) :
    (allRecords (insertGroup g k r)).Perm (r :: allRecords g) := by
  induction g with
  | nil => simp [insertGroup, allRecords]
  | cons e rest ih =>
    obtain ⟨k', rs⟩ := e
    by_cases h : k' = k
    · subst h
      simp only [insertGroup, if_pos rfl, if_true, allRecords, List.map_cons,
        List.flatten_cons, List.append_assoc, List.singleton_append]
      exact List.perm_middle
    · simp only [insertGroup, if_neg h, allRecords, List.map_cons,
        List.flatten_cons] at ih ⊢
      exact (ih.append_left rs).trans List.perm_middle

/-- Loop invariant of `group_by_patient`: a successful pass keeps the patient
keys duplicate-free and the records of the output groups are, as a multiset,
the initial accumulator's records plus exactly the admitted input records. -/
lemma groupLoop_partition (dt : String) (pids : Option (List String)) :
    ∀ (files : List FileRecord) (g g' : PatientGroups),
      groupLoop dt pids g files = .ok g' →
      ((g.map Prod.fst).Nodup → (g'.map Prod.fst).Nodup) ∧
      (allRecords g').Perm
        (allRecords g ++ files.filter (fun r => admitted dt pids r)) := by
  intro files
  induction files with
  | nil =>
    intro g g' h
    simp only [groupLoop] at h
    cases h
    simp
  | cons r fs ih =>
    intro g g' h
    simp only [groupLoop] at h
    cases hs : groupStep dt pids g r with
    | error e => simp only [hs] at h; cases h
    | ok g2 =>
      simp only [hs] at h
      obtain ⟨hnd, hperm⟩ := ih g2 g' h
      unfold groupStep at hs
      cases hp : passesFilter dt r with
      | false =>
        simp only [hp, Bool.false_eq_true, if_false, Except.ok.injEq] at hs
        subst hs
        have hadm : admitted dt pids r = false := by
          simp [admitted, hp]
        rw [List.filter_cons_of_neg (by simp [hadm])]
        exact ⟨hnd, hperm⟩
      | true =>
        simp only [hp, if_true] at hs
        cases hr : resolveIdentifier r with
        | error e => simp only [hr] at hs; cases hs
        | ok ident =>
          simp only [hr] at hs
          cases ha : allowAdmits pids ident with
          | false =>
            simp only [ha, Bool.false_eq_true, if_false, Except.ok.injEq] at hs
            subst hs
            have hadm : admitted dt pids r = false := by
              simp [admitted, hp, hr, ha]
            rw [List.filter_cons_of_neg (by simp [hadm])]
            exact ⟨hnd, hperm⟩
          | true =>
            simp only [ha, if_true, Except.ok.injEq] at hs
            subst hs
            have hadm : admitted dt pids r = true := by
              simp [admitted, hp, hr, ha]
            rw [List.filter_cons_of_pos hadm]
            refine ⟨fun hnd0 => hnd (nodup_insertGroup_keys _ _ _ hnd0), ?_⟩
            have h1 := (allRecords_insertGroup g ident r).append_right
              (fs.filter (fun r => admitted dt pids r))
            exact hperm.trans (h1.trans List.perm_middle.symm)


/-- Totality of the grouping loop when no record has a present-but-empty
`cases` field. -/
lemma groupLoop_isOk (dt : String) (pids : Option (List String)) :
    ∀ (files : List FileRecord) (g : PatientGroups),
      (∀ r ∈ files, r.cases ≠ some []) →
      (groupLoop dt pids g files).isOk = true := by
  intro files
  induction files with
  | nil => intro g _; simp [groupLoop, Except.isOk, Except.toBool]
  | cons r fs ih =>
    intro g hcases
    have hr : r.cases ≠ some [] := hcases r (by simp)
    have hfs : ∀ x ∈ fs, x.cases ≠ some [] := fun x hx => hcases x (by simp [hx])
    simp only [groupLoop]
    cases hs : groupStep dt pids g r with
    | error e =>
      exfalso
      unfold groupStep at hs
      cases hp : passesFilter dt r with
      | false => simp [hp] at hs
      | true =>
        simp only [hp, if_true] at hs
        cases hres : resolveIdentifier r with
        | ok ident => simp [hres] at hs; split at hs <;> simp at hs
        | error e2 =>
          unfold resolveIdentifier at hres
          cases hcs : r.cases with
          | none => simp [hcs] at hres
          | some l =>
            cases l with
            | nil => exact hr hcs
            | cons c cs => simp [hcs] at hres
    | ok g2 => exact ih g2 hfs

/-! ## Claim theorems about the grouping stage -/

/-- C1: for every input record sequence, slide-type filter and optional
allow-list, whenever `group_by_patient` returns a grouping, that grouping is
a partition of the admitted records: the patient keys are pairwise distinct
(so no record is placed in two groups), and the concatenation of all groups
is a permutation of the admitted input records (so every admitted record
occurs with multiplicity exactly one and none is dropped). -/
theorem group_by_patient_is_partition (files : List FileRecord) (dt : String)
    (pids : Option (List String)) (g : PatientGroups)
    (h : group_by_patient files dt pids = .ok g) :
    (g.map Prod.fst).Nodup ∧
    (allRecords g).Perm (files.filter (fun r => admitted dt pids r)) := by
  obtain ⟨hnd, hperm⟩ := groupLoop_partition dt pids files [] g h
  refine ⟨hnd (by simp), ?_⟩
  simpa [allRecords] using hperm

/-- Witness for C1 at a concrete two-record input. -/
theorem group_by_patient_is_partition_witness :
    (c1Group.map Prod.fst).Nodup ∧
    (allRecords c1Group).Perm
      ([recTissue, recDiag].filter (fun r => admitted "both" none r)) :=
  group_by_patient_is_partition [recTissue, recDiag] "both" none c1Group
    (by decide)

/-- C10: an allow-list that is given but empty is falsy in Python, so
`group_by_patient` applies no allow-list filtering at all: the result is the
same as with no allow-list argument. -/
theorem group_by_patient_empty_allow_list (files : List FileRecord)
    (dt : String) :
    group_by_patient files dt (some []) = group_by_patient files dt none := by
  unfold group_by_patient
  suffices hsuf : ∀ (fs : List FileRecord) (g : PatientGroups),
      groupLoop dt (some []) g fs = groupLoop dt none g fs by
    exact hsuf files []
  intro fs
  induction fs with
  | nil => intro g; rfl
  | cons r fs ih =>
    intro g
    have hstep : groupStep dt (some []) g r = groupStep dt none g r := by
      unfold groupStep allowAdmits
      simp
    simp only [groupLoop, hstep]
    cases groupStep dt none g r with
    | error e => rfl
    | ok g2 => exact ih g2

/-- C9: grouping is not total: on a record that passes the filter, has no
case identifier and whose `cases` field is present but empty,
`group_by_patient` fails with an index error instead of falling back to
"Unknown"; and it is total on every input in which no record has a
present-but-empty `cases` field. -/
theorem group_by_patient_partial_on_empty_cases (files : List FileRecord)
    (dt : String) (pids : Option (List String))
    (h : ∀ r ∈ files, r.cases ≠ some []) :
    group_by_patient [recEmptyCases] "both" none = .error .indexError ∧
    (group_by_patient files dt pids).isOk = true := by
  refine ⟨by decide, ?_⟩
  exact groupLoop_isOk dt pids files [] h

/-- Witness for C9 on a concrete crash-free input. -/
theorem group_by_patient_partial_on_empty_cases_witness :
    group_by_patient [recEmptyCases] "both" none = .error .indexError ∧
    (group_by_patient [recTissue, recDiag] "both" none).isOk = true :=
  group_by_patient_partial_on_empty_cases [recTissue, recDiag] "both" none
    (by decide)

/-- C6 counterexample: with the allow-list given as the empty list, a record
whose resolved identifier P1 is not a member of that list is nevertheless
admitted by `group_by_patient` (Python treats the empty list as falsy and
skips the membership test), refuting the claim that admission requires
membership whenever an allow-list is given. -/
theorem group_admits_despite_empty_allow_list :
    group_by_patient [recTissue] "both" (some []) = .ok [("P1", [recTissue])] ∧
    resolveIdentifier recTissue = .ok "P1" ∧
    "P1" ∉ ([] : List String) := by
  decide

/-- C6 amended: a record is admitted only if (a) its experimental strategy
matches the slide-type filter, with filter "both" admitting every strategy,
and (b) when a NON-EMPTY allow-list is given, its resolved patient identifier
is a member of that list; and with filter "tissue", one Tissue Slide plus one
Diagnostic Slide for the same patient group to only the Tissue Slide
record. -/
theorem group_admission_characterization
    (dt : String) (l : List String) (files : List FileRecord)
    (g : PatientGroups) (r rB recT2 recD2 : FileRecord) (p : String)
    (hl : l ≠ [])
    (hok : group_by_patient files dt (some l) = .ok g)
    (hmem : r ∈ allRecords g)
    (hT : recT2.experimentalStrategy = some "Tissue Slide")
    (hTc : recT2.caseId = some p)
    (hTcase : recT2.cases = none)
    (hp : p ≠ "")
    (hD : recD2.experimentalStrategy = some "Diagnostic Slide") :
    (passesFilter dt r = true ∧ resolvedIn r l = true) ∧
    passesFilter "both" rB = true ∧
    group_by_patient [recT2, recD2] "tissue" none = .ok [(p, [recT2])] := by
  refine ⟨?_, ?_, ?_⟩
  · obtain ⟨_, hperm⟩ := group_by_patient_is_partition files dt (some l) g hok
    have hmem2 := hperm.mem_iff.mp hmem
    have hadm : admitted dt (some l) r = true := (List.mem_filter.mp hmem2).2
    unfold admitted at hadm
    rw [Bool.and_eq_true] at hadm
    refine ⟨hadm.1, ?_⟩
    unfold resolvedIn
    have h2 := hadm.2
    cases hres : resolveIdentifier r with
    | error e =>
      rw [hres] at h2
      simp at h2
    | ok ident =>
      rw [hres] at h2
      simp only [allowAdmits] at h2
      simp [List.isEmpty_iff, hl] at h2
      simpa using h2
  · simp [passesFilter]
  · simp [group_by_patient, groupLoop, groupStep, passesFilter,
      resolveIdentifier, caseOr, allowAdmits, insertGroup, hT, hD, hTc,
      hTcase, hp]

/-- Witness for C6 amended at concrete records. -/
theorem group_admission_characterization_witness :
    ((passesFilter "both" recTissue = true ∧
        resolvedIn recTissue ["P1"] = true) ∧
      passesFilter "both" recDiag = true ∧
      group_by_patient [recTissue, recDiag] "tissue" none =
        .ok [("P1", [recTissue])]) :=
  group_admission_characterization "both" ["P1"] [recTissue]
    [("P1", [recTissue])] recTissue recDiag recTissue recDiag "P1"
    (by decide) (by decide) (by decide) (by decide) (by decide) (by decide)
    (by decide) (by decide)

/-- C7 counterexample: a record whose case identifier is present but the
empty string is NOT grouped under that case identifier: Python's
`case_id or submitter_id` treats the empty string as absent and the record is
keyed by the submitter identifier SUB1 instead. -/
theorem identifier_ignores_present_empty_case_id :
    recEmptyCaseId.caseId = some "" ∧
    resolveIdentifier recEmptyCaseId = .ok "SUB1" ∧
    group_by_patient [recEmptyCaseId] "both" none =
      .ok [("SUB1", [recEmptyCaseId])] ∧
    ("SUB1" : String) ≠ "" := by
  decide

/-- C7 amended: the grouping key is the case identifier when present AND
non-empty; otherwise the first associated submitter identifier when the
`cases` list provides one; and "Unknown" when both are absent. -/
theorem identifier_resolution_rules
    (r1 r2 r3 r4 r5 : FileRecord) (s sub sub2 s5 : String)
    (c5 : CaseEntry) (cs cs2 cs5 : List CaseEntry)
    (h11 : r1.caseId = some s) (h12 : s ≠ "") (h13 : r1.cases = none)
    (h21 : r2.caseId = none) (h22 : r2.cases = some (⟨some sub⟩ :: cs))
    (h31 : r3.caseId = some "") (h32 : r3.cases = some (⟨some sub2⟩ :: cs2))
    (h41 : r4.caseId = none) (h42 : r4.cases = none)
    (h51 : r5.caseId = some s5) (h52 : s5 ≠ "")
    (h53 : r5.cases = some (c5 :: cs5)) :
    resolveIdentifier r1 = .ok s ∧
    resolveIdentifier r2 = .ok sub ∧
    resolveIdentifier r3 = .ok sub2 ∧
    resolveIdentifier r4 = .ok "Unknown" ∧
    resolveIdentifier r5 = .ok s5 := by
  refine ⟨?_, ?_, ?_, ?_, ?_⟩ <;>
    simp [resolveIdentifier, caseOr, h11, h12, h13, h21, h22, h31, h32, h41,
      h42, h51, h52, h53]

/-- Witness for C7 amended at concrete records. -/
theorem identifier_resolution_rules_witness :
    resolveIdentifier recTissue = .ok "P1" ∧
    resolveIdentifier recSubmitterOnly = .ok "S2" ∧
    resolveIdentifier recEmptyCaseId = .ok "SUB1" ∧
    resolveIdentifier recNoIds = .ok "Unknown" ∧
    resolveIdentifier recCaseAndCases = .ok "P7" :=
  identifier_resolution_rules recTissue recSubmitterOnly recEmptyCaseId
    recNoIds recCaseAndCases "P1" "S2" "SUB1" "P7" ⟨some "S7"⟩ [] [] []
    (by decide) (by decide) (by decide) (by decide) (by decide) (by decide)
    (by decide) (by decide) (by decide) (by decide) (by decide) (by decide)

/-! ## Claim theorems about the download engine -/

/-- Attempt count of the retry loop is bounded by the remaining budget. -/
lemma retryLoop_attempts_le (md5 : Content → String) (a : DlArgs)
    (env : Nat → DlOutcome) (fs : FS) :
    ∀ (remaining attemptNo : Nat),
      (retryLoop md5 a env fs attemptNo remaining).attempts ≤ remaining + 1 := by
  intro remaining
  induction remaining with
  | zero =>
    intro n
    unfold retryLoop
    cases downloadAttempt md5 a fs (env n) with
    | mk res calls =>
      cases res with
      | ok v => simp
      | error e => cases e <;> simp
  | succ rem ih =>
    intro n
    unfold retryLoop
    cases downloadAttempt md5 a fs (env n) with
    | mk res calls =>
      cases res with
      | ok v => simp
      | error e =>
        cases e with
        | network =>
          simp only
          have := ih (n + 1)
          omega
        | disk => simp

/-- C2: when the target file already exists with matching checksum,
`download_file` returns after a single attempt that makes zero network
requests and reports the file as skipped, and the file map is unchanged (the
only filesystem effect is the `mkdir` of the patient directory).  The network
environment `env` is arbitrary and unused: no download branch is entered. -/
theorem download_file_skips_matching_checksum (md5 : Content → String)
    (a : DlArgs) (env : Nat → DlOutcome) (fs : FS) (c : Content)
    (hc : lookupFile fs (outputPath a) = some c)
    (hmd5 : md5 c = a.md5sum) :
    download_file md5 a env fs =
      { result := .ok (mkdir fs (joinPath a.slidesDir a.identifier), .skipped),
        attempts := 1, waits := [], netCalls := 0 } ∧
    (mkdir fs (joinPath a.slidesDir a.identifier)).files = fs.files := by
  refine ⟨?_, mkdir_files fs _⟩
  unfold download_file
  simp [retryLoop, downloadAttempt, lookupFile_mkdir, hc, hmd5]

/-- Witness for C2 at a concrete filesystem with the file already present. -/
theorem download_file_skips_matching_checksum_witness :
    download_file (fun _ => "m1") ⟨"PRJ", "f1", "t1.svs", "P1", "m1", "slides"⟩
        (fun _ => .netFail) ⟨[], [("slides/P1/t1.svs", [55])]⟩ =
      { result := .ok (mkdir ⟨[], [("slides/P1/t1.svs", [55])]⟩
          (joinPath "slides" "P1"), .skipped),
        attempts := 1, waits := [], netCalls := 0 } ∧
    (mkdir ⟨[], [("slides/P1/t1.svs", [55])]⟩
        (joinPath "slides" "P1")).files =
      FS.files ⟨[], [("slides/P1/t1.svs", [55])]⟩ :=
  download_file_skips_matching_checksum (fun _ => "m1")
    ⟨"PRJ", "f1", "t1.svs", "P1", "m1", "slides"⟩ (fun _ => .netFail)
    ⟨[], [("slides/P1/t1.svs", [55])]⟩ [55] (by decide) (by decide)

/-- C3: the retry policy of `download_file`.  With the target file absent: a
run whose first two attempts fail with a network-class error and whose third
succeeds makes exactly 3 attempts, waits `wait_exponential(multiplier=1,
min=4, max=10)` = 4 time units between attempts, and leaves the fetched
content present at the target path; a first-attempt non-network (disk)
failure propagates immediately after exactly 1 attempt; and under every
environment at most 3 attempts are made. -/
theorem download_file_retry_policy (md5 : Content → String) (a : DlArgs)
    (fs : FS) (envA envB envC : Nat → DlOutcome) (c : Content)
    (hA1 : envA 1 = .netFail) (hA2 : envA 2 = .netFail)
    (hA3 : envA 3 = .fetched c)
    (hmd5 : md5 c = a.md5sum)
    (habsent : lookupFile fs (outputPath a) = none)
    (hB : envB 1 = .diskFail) :
    (download_file md5 a envA fs).attempts = 3 ∧
    (download_file md5 a envA fs).waits =
      [waitExponential 1 4 10 1, waitExponential 1 4 10 2] ∧
    (download_file md5 a envA fs).waits = [4, 4] ∧
    (download_file md5 a envA fs).result =
      .ok (writeFile (mkdir fs (joinPath a.slidesDir a.identifier))
        (outputPath a) c, .downloaded) ∧
    lookupFile (writeFile (mkdir fs (joinPath a.slidesDir a.identifier))
        (outputPath a) c) (outputPath a) = some c ∧
    md5 c = a.md5sum ∧
    (download_file md5 a envB fs).result = .error .disk ∧
    (download_file md5 a envB fs).attempts = 1 ∧
    (download_file md5 a envC fs).attempts ≤ 3 := by
  have hrunA : download_file md5 a envA fs =
      { result := .ok (writeFile (mkdir fs (joinPath a.slidesDir a.identifier))
          (outputPath a) c, .downloaded),
        attempts := 3,
        waits := [waitExponential 1 4 10 1, waitExponential 1 4 10 2],
        netCalls := 3 } := by
    unfold download_file
    simp [retryLoop, downloadAttempt, lookupFile_mkdir, habsent, hA1, hA2, hA3]
  have hrunB : download_file md5 a envB fs =
      { result := .error .disk, attempts := 1, waits := [], netCalls := 1 } := by
    unfold download_file
    simp [retryLoop, downloadAttempt, lookupFile_mkdir, habsent, hB]
  refine ⟨by rw [hrunA], by rw [hrunA], by rw [hrunA]; rfl, by rw [hrunA],
    lookupFile_writeFile_self _ _ _, hmd5, by rw [hrunB], by rw [hrunB], ?_⟩
  exact retryLoop_attempts_le md5 a envC fs 2 1

/-- Witness for C3 at a concrete environment failing twice then
succeeding. -/
theorem download_file_retry_policy_witness :
    (download_file (fun _ => "m1") ⟨"PRJ", "f1", "t1.svs", "P1", "m1", "slides"⟩
        (fun n => if n = 3 then .fetched [7] else .netFail) ⟨[], []⟩).attempts = 3 ∧
    (download_file (fun _ => "m1") ⟨"PRJ", "f1", "t1.svs", "P1", "m1", "slides"⟩
        (fun n => if n = 3 then .fetched [7] else .netFail) ⟨[], []⟩).waits =
      [waitExponential 1 4 10 1, waitExponential 1 4 10 2] ∧
    (download_file (fun _ => "m1") ⟨"PRJ", "f1", "t1.svs", "P1", "m1", "slides"⟩
        (fun n => if n = 3 then .fetched [7] else .netFail) ⟨[], []⟩).waits = [4, 4] ∧
    (download_file (fun _ => "m1") ⟨"PRJ", "f1", "t1.svs", "P1", "m1", "slides"⟩
        (fun n => if n = 3 then .fetched [7] else .netFail) ⟨[], []⟩).result =
      .ok (writeFile (mkdir ⟨[], []⟩ (joinPath "slides" "P1"))
        (outputPath ⟨"PRJ", "f1", "t1.svs", "P1", "m1", "slides"⟩) [7],
        .downloaded) ∧
    lookupFile (writeFile (mkdir ⟨[], []⟩ (joinPath "slides" "P1"))
        (outputPath ⟨"PRJ", "f1", "t1.svs", "P1", "m1", "slides"⟩) [7])
      (outputPath ⟨"PRJ", "f1", "t1.svs", "P1", "m1", "slides"⟩) = some [7] ∧
    (fun (_ : Content) => "m1") [7] =
      DlArgs.md5sum ⟨"PRJ", "f1", "t1.svs", "P1", "m1", "slides"⟩ ∧
    (download_file (fun _ => "m1") ⟨"PRJ", "f1", "t1.svs", "P1", "m1", "slides"⟩
        (fun _ => .diskFail) ⟨[], []⟩).result = .error .disk ∧
    (download_file (fun _ => "m1") ⟨"PRJ", "f1", "t1.svs", "P1", "m1", "slides"⟩
        (fun _ => .diskFail) ⟨[], []⟩).attempts = 1 ∧
    (download_file (fun _ => "m1") ⟨"PRJ", "f1", "t1.svs", "P1", "m1", "slides"⟩
        (fun _ => .netFail) ⟨[], []⟩).attempts ≤ 3 :=
  download_file_retry_policy (fun _ => "m1")
    ⟨"PRJ", "f1", "t1.svs", "P1", "m1", "slides"⟩ ⟨[], []⟩
    (fun n => if n = 3 then .fetched [7] else .netFail) (fun _ => .diskFail)
    (fun _ => .netFail) [7] (by decide) (by decide) (by decide) (by decide)
    (by decide) (by decide)

/-! ## Claim theorems about the orchestrator -/

/-- The per-project loop accumulates exactly the summaries of the projects
that completed. -/
lemma runProjects_eq_filterMap (setOrder : List String → List String)
    (env : CatalogEnv) (dt : String) (pids : Option (List String)) :
    ∀ ps : List String,
      runProjects setOrder env dt pids ps =
        ps.filterMap (processProject setOrder env dt pids) := by
  intro ps
  induction ps with
  | nil => rfl
  | cons p ps ih =>
    simp only [runProjects, List.filterMap_cons]
    cases processProject setOrder env dt pids p with
    | none => simpa using ih
    | some sVal => simpa using ih

/-- A catalog environment for the C4 counterexample: the projects query
succeeds, every manifest query would succeed. -/
def c4Env : CatalogEnv := ⟨.ok ["TCGA-BRCA"], fun _ => .ok []⟩

/-- C4 counterexample: with a patient-ids CSV lacking the "Patient ID"
column, the run does abort with an InvalidArgument-class error, but only
AFTER the `/projects` catalog query of `get_all_projects` has been issued:
the network trace at the abort is non-empty, refuting "before any catalog
query (any network request)". -/
theorem csv_missing_column_aborts_after_projects_query :
    download_tcga_slides id c4Env "both" .all (.csvFile ["Sample ID"] []) =
      (.error .invalidArgument, [.projectsQuery]) ∧
    (download_tcga_slides id c4Env "both" .all
      (.csvFile ["Sample ID"] [])).2 ≠ [] ∧
    NetEvent.projectsQuery ∈
      (download_tcga_slides id c4Env "both" .all (.csvFile ["Sample ID"] [])).2 := by
  decide

/-- C4 amended: with a patient-ids CSV lacking the "Patient ID" column, the
run aborts with an InvalidArgument-class error before any per-project
manifest query; the only network request already issued is the single
project-listing catalog query. -/
theorem csv_missing_column_aborts_before_manifest_query
    (setOrder : List String → List String) (env : CatalogEnv) (dt : String)
    (allP columns idCol : List String) (q : String)
    (hdt : validDownloadType dt = true)
    (hproj : env.projectsResult = .ok allP)
    (hcols : columns.contains "Patient ID" = false) :
    download_tcga_slides setOrder env dt .all (.csvFile columns idCol) =
      (.error .invalidArgument, [.projectsQuery]) ∧
    NetEvent.manifestQuery q ∉
      (download_tcga_slides setOrder env dt .all (.csvFile columns idCol)).2 := by
  have hrun : download_tcga_slides setOrder env dt .all
      (.csvFile columns idCol) = (.error .invalidArgument, [.projectsQuery]) := by
    have hmem : "Patient ID" ∉ columns := by simpa using hcols
    unfold download_tcga_slides resolvePatientIds
    simp [hdt, hproj, hmem]
  refine ⟨hrun, ?_⟩
  rw [hrun]
  simp

/-- Witness for C4 amended at a concrete environment. -/
theorem csv_missing_column_aborts_before_manifest_query_witness :
    (download_tcga_slides id c4Env "tissue" .all (.csvFile ["Sample ID"] []) =
      (.error .invalidArgument, [.projectsQuery]) ∧
    NetEvent.manifestQuery "TCGA-BRCA" ∉
      (download_tcga_slides id c4Env "tissue" .all
        (.csvFile ["Sample ID"] [])).2) :=
  csv_missing_column_aborts_before_manifest_query id c4Env "tissue"
    ["TCGA-BRCA"] ["Sample ID"] [] "TCGA-BRCA" (by decide) (by decide)
    (by decide)

/-- A catalog environment for the C5 witness: project PA's manifest query
fails, project PB's succeeds with one tissue record. -/
def c5Env : CatalogEnv :=
  ⟨.ok ["PA", "PB"],
   fun p => if p = "PB" then .ok [recTissue] else .error ()⟩

/-- C5: a per-project failure (here a failed manifest fetch for project `q`)
aborts only that project: the run completes, the aggregate summary is always
produced, and it contains exactly the `ProjectSummary` rows of the projects
whose processing completed — in particular no row for `q` and the row of any
project `rp` that succeeded. -/
theorem project_failure_isolation
    (setOrder : List String → List String) (env : CatalogEnv) (dt : String)
    (ps allP : List String) (pa : PatientArg) (pids : Option (List String))
    (q rp : String) (fr : List FileRecord) (gr : PatientGroups)
    (hdt : validDownloadType dt = true)
    (hproj : env.projectsResult = .ok allP)
    (hvalid : ∀ x ∈ ps, x ∈ allP)
    (hpa : resolvePatientIds pa = .ok pids)
    (hqfail : env.manifestResult q = .error ())
    (hr : rp ∈ ps)
    (hrok : env.manifestResult rp = .ok fr)
    (hgr : group_by_patient fr (if dt == "none" then "both" else dt) pids =
      .ok gr) :
    download_tcga_slides setOrder env dt (.explicit ps) pa =
      (.ok (ps.filterMap (processProject setOrder env dt pids)),
       .projectsQuery :: ps.map NetEvent.manifestQuery) ∧
    processProject setOrder env dt pids q = none ∧
    processProject setOrder env dt pids rp =
      some (project_summary setOrder rp gr) ∧
    project_summary setOrder rp gr ∈
      ps.filterMap (processProject setOrder env dt pids) := by
  have h3 : processProject setOrder env dt pids rp =
      some (project_summary setOrder rp gr) := by
    unfold processProject
    simp only [hrok, hgr]
  refine ⟨?_, ?_, h3, List.mem_filterMap.mpr ⟨rp, hr, h3⟩⟩
  · unfold download_tcga_slides
    simp [hdt, hproj, hpa, runProjects_eq_filterMap]
    exact hvalid
  · unfold processProject
    simp only [hqfail]

/-- Witness for C5 at a concrete two-project environment with one failing
project. -/
theorem project_failure_isolation_witness :
    (download_tcga_slides id c5Env "both" (.explicit ["PA", "PB"]) .noneArg =
      (.ok (["PA", "PB"].filterMap (processProject id c5Env "both" none)),
       .projectsQuery :: ["PA", "PB"].map NetEvent.manifestQuery) ∧
    processProject id c5Env "both" none "PA" = none ∧
    processProject id c5Env "both" none "PB" =
      some (project_summary id "PB" [("P1", [recTissue])]) ∧
    project_summary id "PB" [("P1", [recTissue])] ∈
      ["PA", "PB"].filterMap (processProject id c5Env "both" none)) :=
  project_failure_isolation id c5Env "both" ["PA", "PB"] ["PA", "PB"]
    .noneArg none "PA" "PB" [recTissue] [("P1", [recTissue])]
    (by decide) (by decide) (by decide) (by decide) (by decide) (by decide)
    (by decide) (by decide)

/-! ## Claim theorems about the summary writers -/

/-- The patient group used by the C8 counterexample: one patient with two
distinct data formats. -/
def c8Group : PatientGroups := [("P1", [recTissue, recDiag])]

/-- One possible enumeration order of the two-element format set. -/
def c8OrderA : List String → List String := fun _ => ["SVS", "TIFF"]

/-- The opposite enumeration order of the same set. -/
def c8OrderB : List String → List String := fun _ => ["TIFF", "SVS"]

/-- C8 counterexample: two runs over the identical project id and
PatientGroup, differing only in the iteration order of the Python `set` of
formats (which varies across interpreter runs under string-hash
randomisation), produce different summary rows and a different
`file_formats` field: the writers are not deterministic in the input
alone. -/
theorem summary_formats_field_order_dependent :
    (c8OrderA (distinctFormats c8Group)).Perm (distinctFormats c8Group) ∧
    (c8OrderB (distinctFormats c8Group)).Perm (distinctFormats c8Group) ∧
    generate_project_summary_csv c8OrderA "PRJ" c8Group ≠
      generate_project_summary_csv c8OrderB "PRJ" c8Group ∧
    project_summary c8OrderA "PRJ" c8Group ≠
      project_summary c8OrderB "PRJ" c8Group ∧
    generate_all_projects_summary_csv [project_summary c8OrderA "PRJ" c8Group] ≠
      generate_all_projects_summary_csv [project_summary c8OrderB "PRJ" c8Group] := by
  decide

/-- C8 amended: the summary writers are deterministic given identical input
AND identical set-enumeration order; with only the enumeration order of the
format set varying, every output cell except the distinct-formats field is
unchanged; and the cross-project report is a pure function of the summary
sequence. -/
theorem summary_deterministic_given_set_order
    (setOrder1 setOrder2 setOrder3 setOrder4 : List String → List String)
    (p : String) (g : PatientGroups) (summaries : List ProjectSummary)
    (h12 : setOrder1 (distinctFormats g) = setOrder2 (distinctFormats g)) :
    (generate_project_summary_csv setOrder3 p g).map (fun row => row.take 6) =
      (generate_project_summary_csv setOrder4 p g).map (fun row => row.take 6) ∧
    { project_summary setOrder3 p g with file_formats := "" } =
      { project_summary setOrder4 p g with file_formats := "" } ∧
    generate_project_summary_csv setOrder1 p g =
      generate_project_summary_csv setOrder2 p g ∧
    project_summary setOrder1 p g = project_summary setOrder2 p g ∧
    generate_all_projects_summary_csv summaries =
      ["Project", "Total Patients", "Total Slides", "Tissue Slides",
       "Diagnostic Slides", "Total Size (MB)", "File Formats"] ::
        summaries.map projectSummaryRow := by
  refine ⟨rfl, rfl, ?_, ?_, rfl⟩
  · unfold generate_project_summary_csv project_summary
    rw [h12]
  · unfold project_summary
    rw [h12]

/-- Witness for C8 amended at concrete orders and group. -/
theorem summary_deterministic_given_set_order_witness :
    ((generate_project_summary_csv c8OrderA "PRJ" c8Group).map
        (fun row => row.take 6) =
      (generate_project_summary_csv c8OrderB "PRJ" c8Group).map
        (fun row => row.take 6) ∧
    { project_summary c8OrderA "PRJ" c8Group with file_formats := "" } =
      { project_summary c8OrderB "PRJ" c8Group with file_formats := "" } ∧
    generate_project_summary_csv id "PRJ" c8Group =
      generate_project_summary_csv id "PRJ" c8Group ∧
    project_summary id "PRJ" c8Group = project_summary id "PRJ" c8Group ∧
    generate_all_projects_summary_csv [project_summary id "PRJ" c8Group] =
      ["Project", "Total Patients", "Total Slides", "Tissue Slides",
       "Diagnostic Slides", "Total Size (MB)", "File Formats"] ::
        [project_summary id "PRJ" c8Group].map projectSummaryRow) :=
  summary_deterministic_given_set_order id id c8OrderA c8OrderB "PRJ" c8Group
    [project_summary id "PRJ" c8Group] rfl

end TcgaHub
